import Mathlib

/-!
Verification development for the BRC-20 indexer core
(src/index/brc20_index.rs and its submodules deploy.rs, mint.rs,
transfer.rs, brc20_ticker.rs, user_balance.rs, brc20_tx.rs).

The Rust code is shallowly embedded:

* Rust HashMap values become association lists (last insert wins via
  replacement), preserving lookup/insert/contains semantics.
* The f64 amounts of the source are modelled as exact rationals; all
  arithmetic the claims exercise stays well inside the range where f64
  arithmetic on decimal token quantities is exact, so addition,
  subtraction and comparison agree with the rational model.
* Fallible Rust paths become Except/Option.  A Rust panic (unwrap on a
  user-supplied value, slice indexing out of bounds) is modelled as
  Except.error, so a validator that can panic has an Except result type.
* The helper module utils.rs (function convert_to_float) is declared by
  brc20_index.rs but its source file is absent from the tree; it is
  modelled from the specification, as is the external bitcoin-crate
  address derivation.  Those definitions carry doc comments saying so.
-/

set_option autoImplicit false

deriving instance DecidableEq for Except

namespace Brc20

/-- Association-list map helpers standing in for Rust HashMap.  Lookup
returns the value at the first matching key; insert replaces an existing
binding, mirroring HashMap::insert. -/
def mapLookup {α β : Type} [DecidableEq α] (m : List (α × β)) (k : α) : Option β :=
  match m with
  | [] => none
  | (k₀, v₀) :: rest => if k₀ = k then some v₀ else mapLookup rest k

/-- Map insertion standing in for HashMap::insert: replaces the binding
of the key when present, otherwise appends a new binding. -/
def mapInsert {α β : Type} [DecidableEq α] (m : List (α × β)) (k : α) (v : β) :
    List (α × β) :=
  match m with
  | [] => [(k, v)]
  | (k₀, v₀) :: rest =>
      if k₀ = k then (k, v) :: rest else (k₀, v₀) :: mapInsert rest k v

/-- Key-membership test standing in for HashMap::contains_key. -/
def mapContains {α β : Type} [DecidableEq α] (m : List (α × β)) (k : α) : Bool :=
  (mapLookup m k).isSome

/-- Exact rational value standing in for the f64 amounts of the source.
The representation is an integer numerator over a positive natural
denominator and is deliberately left unnormalised (no gcd), so that all
operations are plain integer arithmetic the kernel can evaluate; every
comparison works by cross-multiplication, so the representation does not
affect any predicate.  All quantities the claims exercise are decimal
token amounts on which f64 arithmetic is exact, so the model agrees with
the source arithmetic there. -/
structure FRat where
  num : Int
  den : Nat
  deriving DecidableEq, Repr

/-- Embeds an integer. -/
def FRat.ofInt (n : Int) : FRat := { num := n, den := 1 }

/-- Embeds a natural number. -/
def FRat.ofNat (n : Nat) : FRat := { num := (n : Int), den := 1 }

/-- The zero value. -/
def FRat.zero : FRat := FRat.ofInt 0

/-- Addition by cross-multiplication. -/
def FRat.add (a b : FRat) : FRat :=
  { num := a.num * (b.den : Int) + b.num * (a.den : Int), den := a.den * b.den }

/-- Subtraction by cross-multiplication. -/
def FRat.sub (a b : FRat) : FRat :=
  { num := a.num * (b.den : Int) - b.num * (a.den : Int), den := a.den * b.den }

/-- Negation. -/
def FRat.neg (a : FRat) : FRat := { a with num := -a.num }

/-- Value equality (the == of f64), by cross-multiplication. -/
def FRat.beq (a b : FRat) : Bool :=
  a.num * (b.den : Int) == b.num * (a.den : Int)

/-- Value order (the <= of f64), by cross-multiplication; denominators
are positive for every value built by the operations above. -/
def FRat.ble (a b : FRat) : Bool :=
  a.num * (b.den : Int) ≤ b.num * (a.den : Int)

/-- Strict value order (the < of f64). -/
def FRat.blt (a b : FRat) : Bool :=
  a.num * (b.den : Int) < b.num * (a.den : Int)

/-- Sum of a list of values. -/
def FRat.sumList (xs : List FRat) : FRat := xs.foldr FRat.add FRat.zero

/-- Display of an f64 amount as the Display trait prints the integral
values reaching it (no trailing .0 is at stake in any reason string the
claims touch); non-integral representatives print as a fraction. -/
def FRat.display (a : FRat) : String :=
  if a.den = 1 then toString a.num else toString a.num ++ "/" ++ toString a.den

/-- Model of str::to_lowercase as used on ticks.  Lean Char.toLower
lowercases ASCII letters; the Rust method is Unicode-aware, but every
tick the spec and claims exercise is ASCII. -/
def strToLower (s : String) : String := String.mk (s.toList.map Char.toLower)

/-- Splitting a character list at dots, mirroring split on a dot for
strings: the empty list yields one empty part, and each dot opens a new
part. -/
def splitOnDot (cs : List Char) : List (List Char) :=
  match cs with
  | [] => [[]]
  | c :: rest =>
    let r := splitOnDot rest
    if c = '.' then [] :: r
    else
      match r with
      | h :: t => (c :: h) :: t
      | [] => [[c]]

/-- Networks of the bitcoin crate; the indexer hardcodes testnet when it
derives owner addresses. -/
inductive Network where
  | mainnet
  | testnet
  | signet
  | regtest
  deriving DecidableEq, Repr

/-- Addresses as produced by the modelled bitcoin-crate derivation: an
address encodes the network it was derived for together with the script
it came from (bitcoin address encodings are network-dependent). -/
structure AddressM where
  network : Network
  script : List Nat
  deriving DecidableEq, Repr

/-- Outpoint (txid, vout); txids are abstracted to naturals. -/
structure OutPoint where
  txid : Nat
  vout : Nat
  deriving DecidableEq, Repr

/-- Embedding of struct Brc20Tx (brc20_tx.rs): txid, vout, blocktime,
owner address and inputs (vin entries abstracted to their outpoints). -/
structure Brc20Tx where
  txId : Nat
  vout : Nat
  blocktime : Nat
  owner : AddressM
  inputs : List OutPoint
  deriving DecidableEq, Repr

/-- Embedding of Brc20Tx::get_outpoint. -/
def Brc20Tx.getOutpoint (tx : Brc20Tx) : OutPoint :=
  { txid := tx.txId, vout := tx.vout }

/-- Embedding of struct Brc20Deploy (deploy.rs): the raw deploy payload
fields, all strings as in the source. -/
structure Brc20Deploy where
  p : String
  op : String
  tick : String
  max : String
  lim : Option String
  dec : Option String
  deriving DecidableEq, Repr

/-- Embedding of struct Brc20Mint (mint.rs). -/
structure Brc20Mint where
  p : String
  op : String
  tick : String
  amt : String
  deriving DecidableEq, Repr

/-- Embedding of struct Brc20Transfer (transfer.rs). -/
structure Brc20Transfer where
  p : String
  op : String
  tick : String
  amt : String
  deriving DecidableEq, Repr

/-- Parse of an unsigned decimal digit string to a natural number; none
when the string is empty or holds a non-digit. -/
def parseNatDigits (s : List Char) : Option Nat :=
  match s with
  | [] => none
  | _ =>
    if s.all (fun c => c.isDigit) then
      some (s.foldl (fun acc c => acc * 10 + (c.toNat - 48)) 0)
    else
      none

/-- Model of str::parse::<u8> as the Rust deploy validator uses it on
the dec field: an optional leading plus sign, then decimal digits, value
at most 255; anything else is a parse error. -/
def parseU8 (s : String) : Option Nat :=
  let chars := s.toList
  let digits := match chars with
    | '+' :: rest => rest
    | _ => chars
  match parseNatDigits digits with
  | some n => if n ≤ 255 then some n else none
  | none => none

/-- Model of str::parse::<f64> restricted to the plain decimal strings
the transfer path feeds it: optional sign, digits with an optional
single fractional part.  Exponent forms, inf and NaN are not modelled;
they are outside anything a claim exercises, and a NaN/inf amount has no
rational representative.  A malformed string is none, which the source
turns into 0.0 via unwrap_or. -/
def parseF64 (s : String) : Option FRat :=
  let chars := s.toList
  let (neg, body) := match chars with
    | '-' :: rest => (true, rest)
    | '+' :: rest => (false, rest)
    | _ => (false, chars)
  let intPart := body.takeWhile (fun c => c.isDigit)
  let rest := body.drop intPart.length
  let fracOk : Option (List Char) := match rest with
    | [] => some []
    | '.' :: fr => if fr.all (fun c => c.isDigit) then some fr else none
    | _ => none
  match fracOk with
  | none => none
  | some fr =>
    if intPart.isEmpty ∧ fr.isEmpty then
      none
    else
      let ip : Nat := intPart.foldl (fun acc c => acc * 10 + (c.toNat - 48)) 0
      let fp : Nat := fr.foldl (fun acc c => acc * 10 + (c.toNat - 48)) 0
      let mag : FRat := FRat.add (FRat.ofNat ip) { num := (fp : Int), den := 10 ^ fr.length }
      some (if neg then mag.neg else mag)

/-- Modelled from the spec: the numeric decoder convert_to_float of
utils.rs, whose source file is declared by brc20_index.rs but absent
from the tree.  Spec 4.1: reject empty, non-numeric, negative, or more
than one dot; reject fractional digit count above dec; right-pad the
fraction to dec digits, concatenate with the integer part and parse as
an unsigned integer (overflow is an error); the result is the base-unit
integer.  Error strings are modelled. -/
def convertToFloat (s : String) (dec : Nat) : Except String FRat :=
  let chars := s.toList
  if chars.isEmpty then
    .error "Empty amount string"
  else
    let parts := splitOnDot chars
    match parts with
    | [ip] =>
      if ip.all (fun c => c.isDigit) ∧ ¬ ip.isEmpty then
        let v : Nat := ip.foldl (fun acc c => acc * 10 + (c.toNat - 48)) 0
        let base : Nat := v * 10 ^ dec
        if base < 2 ^ 64 then .ok (FRat.ofNat base) else .error "Amount overflow"
      else
        .error "Invalid amount string"
    | [ip, fp] =>
      if ip.all (fun c => c.isDigit) ∧ fp.all (fun c => c.isDigit) ∧
          ¬ ip.isEmpty ∧ ¬ fp.isEmpty then
        if fp.length ≤ dec then
          let vi : Nat := ip.foldl (fun acc c => acc * 10 + (c.toNat - 48)) 0
          let vf : Nat := fp.foldl (fun acc c => acc * 10 + (c.toNat - 48)) 0
          let base : Nat := vi * 10 ^ dec + vf * 10 ^ (dec - fp.length)
          if base < 2 ^ 64 then .ok (FRat.ofNat base) else .error "Amount overflow"
        else
          .error "Too many decimal places"
      else
        .error "Invalid amount string"
    | _ => .error "More than one decimal point"

end Brc20

namespace Brc20

/-- Embedding of struct Brc20MintTx (mint.rs). -/
structure Brc20MintTx where
  brc20Tx : Brc20Tx
  mint : Brc20Mint
  amount : FRat
  isValid : Bool
  deriving DecidableEq, Repr

/-- Embedding of Brc20MintTx::new: amount starts at 0.0 and validity at
false. -/
def Brc20MintTx.new (brc20Tx : Brc20Tx) (mint : Brc20Mint) : Brc20MintTx :=
  { brc20Tx := brc20Tx, mint := mint, amount := FRat.zero, isValid := false }

/-- Embedding of struct Brc20TransferTx (transfer.rs). -/
structure Brc20TransferTx where
  inscriptionTx : Brc20Tx
  transferTx : Option Brc20Tx
  transferScript : Brc20Transfer
  amount : FRat
  receiver : Option AddressM
  isValid : Bool
  deriving DecidableEq, Repr

/-- Embedding of Brc20TransferTx::new: the amount is the amt string
parsed as f64 with unwrap_or(0.0); no ticker decimals are involved. -/
def Brc20TransferTx.new (inscriptionTx : Brc20Tx) (transferScript : Brc20Transfer) :
    Brc20TransferTx :=
  { inscriptionTx := inscriptionTx,
    transferTx := none,
    transferScript := transferScript,
    amount := (parseF64 transferScript.amt).getD FRat.zero,
    receiver := none,
    isValid := false }

/-- Embedding of Brc20TransferTx::get_inscription_outpoint. -/
def Brc20TransferTx.getInscriptionOutpoint (t : Brc20TransferTx) : OutPoint :=
  t.inscriptionTx.getOutpoint

/-- Embedding of Brc20TransferTx::set_validity. -/
def Brc20TransferTx.setValidity (t : Brc20TransferTx) (isValid : Bool) : Brc20TransferTx :=
  { t with isValid := isValid }

/-- Embedding of struct Brc20DeployTx (deploy.rs). -/
structure Brc20DeployTx where
  maxSupply : FRat
  limit : FRat
  decimals : Nat
  brc20Tx : Brc20Tx
  deployScript : Brc20Deploy
  isValid : Bool
  deriving DecidableEq, Repr

/-- Embedding of Brc20DeployTx::new: zero supply and limit, 18 decimals,
invalid until validated. -/
def Brc20DeployTx.new (brc20Tx : Brc20Tx) (deployScript : Brc20Deploy) : Brc20DeployTx :=
  { maxSupply := FRat.zero, limit := FRat.zero, decimals := 18,
    brc20Tx := brc20Tx, deployScript := deployScript, isValid := false }

/-- Embedding of struct UserBalance (user_balance.rs). -/
structure UserBalance where
  overallBalance : FRat
  activeTransferInscriptions : List (OutPoint × Brc20TransferTx)
  transferSends : List Brc20TransferTx
  transferReceives : List Brc20TransferTx
  mints : List Brc20MintTx
  deriving DecidableEq, Repr

/-- Embedding of UserBalance::new(overall_balance). -/
def UserBalance.new (overallBalance : FRat) : UserBalance :=
  { overallBalance := overallBalance,
    activeTransferInscriptions := [],
    transferSends := [],
    transferReceives := [],
    mints := [] }

/-- The call UserBalance::new() inside Brc20Ticker::add_mint passes no
argument even though user_balance.rs declares new(overall_balance)
(version skew in the source); the freshly created balance is modelled as
zero-initialised and empty, which is the only reading under which the
call constructs a UserBalance at all. -/
def UserBalance.empty : UserBalance := UserBalance.new FRat.zero

/-- Embedding of UserBalance::get_transferable_balance: sum of the
amounts of the active transfer inscriptions. -/
def UserBalance.getTransferableBalance (ub : UserBalance) : FRat :=
  FRat.sumList (ub.activeTransferInscriptions.map (fun e => e.2.amount))

/-- Embedding of UserBalance::get_available_balance. -/
def UserBalance.getAvailableBalance (ub : UserBalance) : FRat :=
  ub.overallBalance.sub ub.getTransferableBalance

/-- Embedding of UserBalance::increase_overall_balance. -/
def UserBalance.increaseOverallBalance (ub : UserBalance) (amount : FRat) : UserBalance :=
  { ub with overallBalance := ub.overallBalance.add amount }

/-- Embedding of UserBalance::decrease_overall_balance, which returns an
Err string when the decrease exceeds the overall balance. -/
def UserBalance.decreaseOverallBalance (ub : UserBalance) (amount : FRat) :
    Except String UserBalance :=
  if FRat.ble amount ub.overallBalance then
    .ok { ub with overallBalance := ub.overallBalance.sub amount }
  else
    .error "Decrease amount exceeds overall balance"

/-- Embedding of UserBalance::add_transfer_inscription: insert keyed by
the inscription outpoint. -/
def UserBalance.addTransferInscription (ub : UserBalance)
    (transferInscription : Brc20TransferTx) : UserBalance :=
  let active := mapInsert ub.activeTransferInscriptions
    transferInscription.getInscriptionOutpoint transferInscription
  { ub with activeTransferInscriptions := active }

/-- Embedding of UserBalance::is_active_inscription. -/
def UserBalance.isActiveInscription (ub : UserBalance) (outpoint : OutPoint) : Bool :=
  mapContains ub.activeTransferInscriptions outpoint

/-- Embedding of UserBalance::add_mint_tx: appends to the mint log and
nothing else (in particular the overall balance is untouched). -/
def UserBalance.addMintTx (ub : UserBalance) (mint : Brc20MintTx) : UserBalance :=
  { ub with mints := ub.mints ++ [mint] }

/-- Embedding of UserBalance::add_transfer_send: the source calls
decrease_overall_balance(..).unwrap(), so a send exceeding the overall
balance panics; the panic is the Except.error case. -/
def UserBalance.addTransferSend (ub : UserBalance) (transferSend : Brc20TransferTx) :
    Except String UserBalance :=
  match ub.decreaseOverallBalance transferSend.amount with
  | .ok ub₁ => .ok { ub₁ with transferSends := ub₁.transferSends ++ [transferSend] }
  | .error e => .error e

/-- Embedding of UserBalance::add_transfer_receive. -/
def UserBalance.addTransferReceive (ub : UserBalance) (transferReceive : Brc20TransferTx) :
    UserBalance :=
  let ub₁ := ub.increaseOverallBalance transferReceive.amount
  { ub₁ with transferReceives := ub₁.transferReceives ++ [transferReceive] }

/-- Embedding of struct InvalidBrc20Tx (brc20_tx.rs). -/
structure InvalidBrc20Tx where
  brc20Tx : Brc20Tx
  reason : String
  deriving DecidableEq, Repr

/-- Embedding of InvalidBrc20TxMap: a map keyed by txid. -/
def InvalidBrc20TxMap := List (Nat × InvalidBrc20Tx)

instance : DecidableEq InvalidBrc20TxMap :=
  inferInstanceAs (DecidableEq (List (Nat × InvalidBrc20Tx)))

/-- Embedding of InvalidBrc20TxMap::add_invalid_tx. -/
def InvalidBrc20TxMap.addInvalidTx (m : InvalidBrc20TxMap) (invalidTx : InvalidBrc20Tx) :
    InvalidBrc20TxMap :=
  mapInsert m invalidTx.brc20Tx.txId invalidTx

/-- Embedding of struct Brc20Ticker (brc20_ticker.rs). -/
structure Brc20Ticker where
  ticker : String
  limit : FRat
  maxSupply : FRat
  totalMinted : FRat
  decimals : Nat
  deployTx : Brc20DeployTx
  mints : List Brc20MintTx
  transfers : List Brc20TransferTx
  balances : List (AddressM × UserBalance)
  deriving DecidableEq, Repr

/-- Embedding of Brc20Ticker::new: the ticker string is the deploy
script tick verbatim (not lowercased); total_minted starts at 0. -/
def Brc20Ticker.new (deployTx : Brc20DeployTx) : Brc20Ticker :=
  { ticker := deployTx.deployScript.tick,
    limit := deployTx.limit,
    maxSupply := deployTx.maxSupply,
    totalMinted := FRat.zero,
    decimals := deployTx.decimals,
    deployTx := deployTx,
    mints := [],
    transfers := [],
    balances := [] }

/-- Embedding of Brc20Ticker::add_mint as written in brc20_ticker.rs:
the mint is appended to the owner balance mint log (creating the balance
when absent) and to the ticker mint history.  The total_minted field is
NOT updated and no overall balance is increased; the source carries the
variant that did both only as commented-out code. -/
def Brc20Ticker.addMint (t : Brc20Ticker) (mint : Brc20MintTx) : Brc20Ticker :=
  let owner := mint.brc20Tx.owner
  let balances :=
    match mapLookup t.balances owner with
    | some balance => mapInsert t.balances owner (balance.addMintTx mint)
    | none => mapInsert t.balances owner (UserBalance.empty.addMintTx mint)
  { t with balances := balances, mints := t.mints ++ [mint] }

/-- Embedding of Brc20Ticker::add_transfer. -/
def Brc20Ticker.addTransfer (t : Brc20Ticker) (transfer : Brc20TransferTx) : Brc20Ticker :=
  { t with transfers := t.transfers ++ [transfer] }

/-- Embedding of Brc20Ticker::get_user_balance, which returns a CLONE of
the stored balance (HashMap::get(..).cloned()); in the embedding this is
a plain value read, and the cloning matters at call sites that mutate
the returned value without writing it back. -/
def Brc20Ticker.getUserBalance (t : Brc20Ticker) (address : AddressM) : Option UserBalance :=
  mapLookup t.balances address

/-- Embedding of Brc20Ticker::get_total_supply. -/
def Brc20Ticker.getTotalSupply (t : Brc20Ticker) : FRat := t.totalMinted

/-- Embedding of Brc20Ticker::get_total_minted_from_mint_txs. -/
def Brc20Ticker.getTotalMintedFromMintTxs (t : Brc20Ticker) : FRat :=
  FRat.sumList (t.mints.map (fun m => m.amount))

/-- The accessor Brc20Ticker::get_total_minted that mint.rs calls is not
declared in brc20_ticker.rs (version skew in the source); it is modelled
as the total_minted field read, matching get_total_supply here and the
get_total_minted of the sibling implementation in brc20_indexer.rs. -/
def Brc20Ticker.getTotalMinted (t : Brc20Ticker) : FRat := t.totalMinted

/-- Embedding of Brc20Ticker::get_ticker: the lowercased tick; this is
the key under which index_brc20 registers the ticker. -/
def Brc20Ticker.getTicker (t : Brc20Ticker) : String := strToLower t.ticker

/-- Embedding of Brc20Ticker::get_decimals. -/
def Brc20Ticker.getDecimals (t : Brc20Ticker) : Nat := t.decimals

/-- Embedding of Brc20Ticker::get_limit. -/
def Brc20Ticker.getLimit (t : Brc20Ticker) : FRat := t.limit

/-- Embedding of Brc20Ticker::get_max_supply. -/
def Brc20Ticker.getMaxSupply (t : Brc20Ticker) : FRat := t.maxSupply

/-- Ticker registry type: HashMap<String, Brc20Ticker>. -/
def TickerMap := List (String × Brc20Ticker)

instance : DecidableEq TickerMap :=
  inferInstanceAs (DecidableEq (List (String × Brc20Ticker)))

end Brc20

namespace Brc20

/-- Embedding of Brc20Mint::validate (mint.rs).  The ticker lookup uses
the raw (non-lowercased) tick.  The limit check rejects; exceeding the
remaining supply clamps the amount and keeps validity, setting only an
informational reason string; a decode error or a missing ticker rejects.
On rejection the invalid-tx map gains an entry and the ticker map is
untouched; on acceptance the ticker is updated via add_mint (a second
lookup mirrors the get_mut(..).unwrap(); the none case is unreachable
because the key was just found). -/
def Brc20Mint.validate (self : Brc20Mint) (brc20Tx : Brc20Tx)
    (tickerMap : TickerMap) (invalidTxMap : InvalidBrc20TxMap) :
    Brc20MintTx × TickerMap × InvalidBrc20TxMap :=
  let mintTx := Brc20MintTx.new brc20Tx self
  let (isValid, reason, amount) :=
    match mapLookup tickerMap mintTx.mint.tick with
    | some ticker =>
      let limit := ticker.getLimit
      let maxSupply := ticker.getMaxSupply
      let totalMinted := ticker.getTotalMinted
      match convertToFloat mintTx.mint.amt ticker.getDecimals with
      | .ok amount =>
        if FRat.blt limit amount then
          (false, "Mint amount exceeds limit", mintTx.amount)
        else if FRat.blt maxSupply (totalMinted.add amount) then
          let remainingAmount := maxSupply.sub totalMinted
          (true,
            "Total minted amount exceeds maximum. Adjusted mint amount to "
              ++ remainingAmount.display,
            remainingAmount)
        else
          (true, "", amount)
      | .error e => (false, e, mintTx.amount)
    | none => (false, "Ticker symbol does not exist", mintTx.amount)
  let mintTx := { mintTx with amount := amount }
  if isValid = false then
    ({ brc20Tx := mintTx.brc20Tx, mint := mintTx.mint,
       amount := mintTx.amount, isValid := isValid },
     tickerMap,
     invalidTxMap.addInvalidTx { brc20Tx := mintTx.brc20Tx, reason := reason })
  else
    let tickerMap₁ :=
      match mapLookup tickerMap mintTx.mint.tick with
      | some ticker => mapInsert tickerMap mintTx.mint.tick (ticker.addMint mintTx)
      | none => tickerMap
    ({ brc20Tx := mintTx.brc20Tx, mint := mintTx.mint,
       amount := mintTx.amount, isValid := isValid },
     tickerMap₁, invalidTxMap)

/-- Embedding of Brc20TransferTx::handle_inscribe_transfer_amount
(transfer.rs).  The returned Brc20TransferTx is the OUTER binding made
before the checks: the source sets validity on a locally shadowed copy
inside the accept branch, and inserts the record into the UserBalance
CLONE returned by get_user_balance; neither is written back to the
ticker map, so the ticker map is returned untouched on every path and
the returned record keeps the validity it came in with. -/
def Brc20TransferTx.handleInscribeTransferAmount (self : Brc20TransferTx)
    (tickerMap : TickerMap) (invalidTxMap : InvalidBrc20TxMap) :
    Brc20TransferTx × TickerMap × InvalidBrc20TxMap :=
  let transferTx := self
  let owner := self.inscriptionTx.owner
  let reason :=
    match mapLookup tickerMap self.transferScript.tick with
    | some ticker =>
      let transferAmount := (parseF64 self.transferScript.amt).getD FRat.zero
      match ticker.getUserBalance owner with
      | some userBalance =>
        if FRat.ble transferAmount userBalance.getAvailableBalance then
          let validatedTx := self.setValidity true
          let _updatedClone := userBalance.addTransferInscription validatedTx
          ""
        else
          "Transfer amount exceeds available balance"
      | none => "User balance not found"
    | none => "Ticker not found"
  let invalidTxMap₁ :=
    if reason ≠ "" then
      invalidTxMap.addInvalidTx { brc20Tx := transferTx.inscriptionTx, reason := reason }
    else
      invalidTxMap
  (transferTx, tickerMap, invalidTxMap₁)

/-- Embedding of Brc20DeployTx::validate_deploy_script (deploy.rs).  The
duplicate-tick check runs first, the 4-character check second (as an
else-if of the first); the dec, max and lim checks each OVERWRITE the
reason on failure.  The dec field is parsed with parse::<u8>().unwrap(),
which panics on an unparseable string: that panic is the Except.error
case.  The final validity is reason.is_empty(), and an invalid deploy is
added to the invalid-tx map.  The ticker map is only read. -/
def Brc20DeployTx.validateDeployScript (self : Brc20DeployTx)
    (invalidTxMap : InvalidBrc20TxMap) (tickerMap : TickerMap) :
    Except String (Brc20DeployTx × InvalidBrc20TxMap) :=
  let tickerSymbol := strToLower self.deployScript.tick
  let reason :=
    if mapContains tickerMap tickerSymbol then
      "Ticker symbol already exists"
    else if self.deployScript.tick.length ≠ 4 then
      "Ticker symbol must be 4 characters long"
    else ""
  let decStage : Except String (String × Nat) :=
    match self.deployScript.dec with
    | some decStr =>
      match parseU8 decStr with
      | some decimals =>
        if decimals > 18 then
          .ok ("Decimals must be 18 or less", self.decimals)
        else
          .ok (reason, decimals)
      | none => .error "panicked at unwrap of dec parse::<u8> result"
    | none => .ok (reason, self.decimals)
  match decStage with
  | .error e => .error e
  | .ok (reason, decimals) =>
    let (reason, maxSupply) :=
      match convertToFloat self.deployScript.max decimals with
      | .ok max =>
        if max.beq FRat.zero then ("Max supply must be greater than 0", self.maxSupply)
        else (reason, max)
      | .error e => (e, self.maxSupply)
    let (reason, limit) :=
      match convertToFloat (self.deployScript.lim.getD "0") decimals with
      | .ok lim =>
        if FRat.blt maxSupply lim then
          ("Limit must be less than or equal to max supply", self.limit)
        else if lim.beq FRat.zero then (reason, maxSupply)
        else (reason, lim)
      | .error e => (e, self.limit)
    let validDeployTx : Brc20DeployTx :=
      { self with decimals := decimals, maxSupply := maxSupply,
                  limit := limit, isValid := reason == "" }
    let invalidTxMap₁ :=
      if validDeployTx.isValid = false then
        invalidTxMap.addInvalidTx { brc20Tx := validDeployTx.brc20Tx, reason := reason }
      else
        invalidTxMap
    .ok (validDeployTx, invalidTxMap₁)

/-- Embedding of struct Brc20Index (brc20_index.rs): the ticker registry
and the invalid-transaction registry. -/
structure Brc20Index where
  tickers : TickerMap
  invalidTxMap : InvalidBrc20TxMap
  deriving DecidableEq

/-- Embedding of Brc20Index::new. -/
def Brc20Index.new : Brc20Index := { tickers := [], invalidTxMap := [] }

/-- Embedding of the deploy arm of the index_brc20 loop: validate, and
on success register the new ticker under its lowercased tick
(Brc20Ticker::get_ticker); the document-sink insert is outside the
model.  A panic inside the validator propagates. -/
def indexDeployStep (state : Brc20Index) (brc20Tx : Brc20Tx) (deploy : Brc20Deploy) :
    Except String Brc20Index :=
  if deploy.op = "deploy" then
    match (Brc20DeployTx.new brc20Tx deploy).validateDeployScript
        state.invalidTxMap state.tickers with
    | .error e => .error e
    | .ok (validatedDeployTx, invalidTxMap) =>
      if validatedDeployTx.isValid then
        let ticker := Brc20Ticker.new validatedDeployTx
        .ok { tickers := mapInsert state.tickers ticker.getTicker ticker,
              invalidTxMap := invalidTxMap }
      else
        .ok { state with invalidTxMap := invalidTxMap }
  else
    .ok state

/-- Embedding of the mint arm of the index_brc20 loop: Brc20Mint::validate
performs all state mutation itself. -/
def indexMintStep (state : Brc20Index) (brc20Tx : Brc20Tx) (mint : Brc20Mint) :
    Brc20Index :=
  if mint.op = "mint" then
    let (_mintTx, tickers, invalidTxMap) :=
      mint.validate brc20Tx state.tickers state.invalidTxMap
    { tickers := tickers, invalidTxMap := invalidTxMap }
  else
    state

/-- Embedding of the transfer arm of the index_brc20 loop. -/
def indexTransferStep (state : Brc20Index) (brc20Tx : Brc20Tx)
    (transfer : Brc20Transfer) : Brc20Index :=
  if transfer.op = "transfer" then
    let (_transferTx, tickers, invalidTxMap) :=
      (Brc20TransferTx.new brc20Tx transfer).handleInscribeTransferAmount
        state.tickers state.invalidTxMap
    { tickers := tickers, invalidTxMap := invalidTxMap }
  else
    state

end Brc20

namespace Brc20

/-- Entry of GetRawTransactionResult.vout: output index n and the
script_pub_key bytes (the hex decode step script().unwrap() of the
source is absorbed by holding the bytes directly). -/
structure VoutEntry where
  n : Nat
  scriptPubKey : List Nat
  deriving DecidableEq, Repr

/-- Abstraction of GetRawTransactionResult: txid, optional blocktime,
inputs (as outpoints) and outputs. -/
structure RawTxInfo where
  txid : Nat
  blocktime : Option Nat
  vin : List OutPoint
  vout : List VoutEntry
  deriving DecidableEq, Repr

/-- Embedding of Brc20Tx::new (brc20_tx.rs): reads vout[0].n (a panic
when vout is empty, modelled as Except.error) and fails with an error
when the blocktime is absent; both errors propagate to the caller. -/
def Brc20Tx.new (rawTxResult : RawTxInfo) (owner : AddressM) : Except String Brc20Tx :=
  match rawTxResult.vout with
  | [] => .error "panicked at index out of bounds: vout is empty"
  | v₀ :: _ =>
    match rawTxResult.blocktime with
    | none => .error "Blocktime not found in raw transaction result"
    | some blocktime =>
      .ok { txId := rawTxResult.txid, vout := v₀.n, blocktime := blocktime,
            owner := owner, inputs := rawTxResult.vin }

/-- Modelled from the spec: the external bitcoin-crate function
Address::from_script, which maps an output script to an address on the
given network (spec section 1: address derivation is an external
collaborator).  Derivation fails for scripts without an address form,
modelled as the empty script; a derived address carries the network it
was derived for, since bitcoin address encodings are network-dependent. -/
def AddressM.fromScript (script : List Nat) (network : Network) : Option AddressM :=
  if script = [] then none else some { network := network, script := script }

/-- Embedding of get_owner_of_output (brc20_index.rs): index the raw
transaction vout at the outpoint vout (a Rust panic when out of bounds),
then derive the address with Network::Testnet hardcoded, mapping a
derivation failure to an error string. -/
def getOwnerOfOutput (outpoint : OutPoint) (rawTxInfo : RawTxInfo) :
    Except String AddressM :=
  match rawTxInfo.vout.get? outpoint.vout with
  | none => .error "panicked at index out of bounds on vout"
  | some entry =>
    match AddressM.fromScript entry.scriptPubKey Network.testnet with
    | some thisAddress => .ok thisAddress
    | none => .error "Couldn't derive address from scriptPubKey"

/-- Embedding of the second, textually identical get_owner_of_output in
brc20_indexer.rs (lines 668-683), which also hardcodes Network::Testnet. -/
def getOwnerOfOutputIndexer (outpoint : OutPoint) (rawTxInfo : RawTxInfo) :
    Except String AddressM :=
  match rawTxInfo.vout.get? outpoint.vout with
  | none => .error "panicked at index out of bounds on vout"
  | some entry =>
    match AddressM.fromScript entry.scriptPubKey Network.testnet with
    | some thisAddress => .ok thisAddress
    | none => .error "Couldn't derive address from scriptPubKey"

/-- Continuation-byte test for the UTF-8 decoder. -/
def utf8Cont (b : Nat) : Bool := 128 ≤ b && b ≤ 191

/-- Decoder loop modelling str::from_utf8: validates and decodes the
byte list to characters, rejecting overlong forms, surrogates and
values above 0x10FFFF; fuel is the byte count, which bounds the number
of decoded characters. -/
def utf8DecodeGo : Nat → List Nat → Option (List Char)
  | _, [] => some []
  | 0, _ :: _ => none
  | fuel + 1, b :: rest =>
    if b ≤ 127 then
      (utf8DecodeGo fuel rest).map (fun cs => Char.ofNat b :: cs)
    else if 194 ≤ b && b ≤ 223 then
      match rest with
      | b₁ :: rest₁ =>
        if utf8Cont b₁ then
          (utf8DecodeGo fuel rest₁).map
            (fun cs => Char.ofNat ((b - 192) * 64 + (b₁ - 128)) :: cs)
        else none
      | [] => none
    else if 224 ≤ b && b ≤ 239 then
      match rest with
      | b₁ :: b₂ :: rest₂ =>
        let lo₁ := if b = 224 then 160 else if b = 237 then 128 else 128
        let hi₁ := if b = 224 then 191 else if b = 237 then 159 else 191
        if (lo₁ ≤ b₁ && b₁ ≤ hi₁) && (if b = 224 then true else utf8Cont b₁)
            && utf8Cont b₂ then
          (utf8DecodeGo fuel rest₂).map
            (fun cs =>
              Char.ofNat ((b - 224) * 4096 + (b₁ - 128) * 64 + (b₂ - 128)) :: cs)
        else none
      | _ => none
    else if 240 ≤ b && b ≤ 244 then
      match rest with
      | b₁ :: b₂ :: b₃ :: rest₃ =>
        let lo₁ := if b = 240 then 144 else 128
        let hi₁ := if b = 244 then 143 else 191
        if (lo₁ ≤ b₁ && b₁ ≤ hi₁) && utf8Cont b₂ && utf8Cont b₃ then
          (utf8DecodeGo fuel rest₃).map
            (fun cs =>
              Char.ofNat ((b - 240) * 262144 + (b₁ - 128) * 4096
                + (b₂ - 128) * 64 + (b₃ - 128)) :: cs)
        else none
      | _ => none
    else
      none

/-- Model of str::from_utf8 as used by index_brc20 on inscription body
bytes: none exactly when the bytes are not valid UTF-8. -/
def strFromUtf8 (bytes : List Nat) : Option String :=
  (utf8DecodeGo bytes.length bytes).map (fun cs => String.mk cs)

end Brc20

namespace Brc20

/-- Opening-brace character, written numerically. -/
def jsonLBrace : Char := Char.ofNat 123

/-- Closing-brace character, written numerically. -/
def jsonRBrace : Char := Char.ofNat 125

/-- Double-quote character. -/
def jsonQuote : Char := Char.ofNat 34

/-- Backslash character. -/
def jsonBackslash : Char := Char.ofNat 92

/-- Whitespace test for the JSON reader. -/
def jsonIsWs (c : Char) : Bool :=
  c.toNat = 32 || c.toNat = 9 || c.toNat = 10 || c.toNat = 13

/-- String-literal body reader for the JSON reader: consumes characters
up to the closing quote, handling the two escapes the payloads need
(escaped quote and escaped backslash). -/
def jsonStringGo : Nat → List Char → List Char → Option (String × List Char)
  | 0, _, _ => none
  | _ + 1, _, [] => none
  | fuel + 1, acc, c :: rest =>
    if c = jsonQuote then
      some (String.mk acc.reverse, rest)
    else if c = jsonBackslash then
      match rest with
      | e :: rest₁ =>
        if e = jsonQuote ∨ e = jsonBackslash then
          jsonStringGo fuel (e :: acc) rest₁
        else none
      | [] => none
    else
      jsonStringGo fuel (c :: acc) rest

/-- Key-value pair list reader for flat JSON objects whose values are
strings. -/
def jsonPairsGo : Nat → List (String × String) → List Char →
    Option (List (String × String) × List Char)
  | 0, _, _ => none
  | fuel + 1, acc, cs =>
    match cs.dropWhile jsonIsWs with
    | c :: rest =>
      if c = jsonQuote then
        match jsonStringGo (rest.length + 1) [] rest with
        | some (key, rest₁) =>
          match rest₁.dropWhile jsonIsWs with
          | ':' :: rest₂ =>
            match rest₂.dropWhile jsonIsWs with
            | v :: rest₃ =>
              if v = jsonQuote then
                match jsonStringGo (rest₃.length + 1) [] rest₃ with
                | some (value, rest₄) =>
                  match rest₄.dropWhile jsonIsWs with
                  | ',' :: rest₅ => jsonPairsGo fuel ((key, value) :: acc) rest₅
                  | d :: rest₅ =>
                    if d = jsonRBrace then some ((key, value) :: acc, rest₅)
                    else none
                  | [] => none
                | none => none
              else none
            | [] => none
          | _ => none
        | none => none
      else none
    | [] => none

/-- Reader for a flat JSON object with string values, the shape of the
three BRC-20 payload structs.  This models the serde_json boundary, an
external crate: all fields of Brc20Deploy, Brc20Mint and Brc20Transfer
are (optional) strings, so any payload serde accepts for them is an
object whose relevant values are strings; objects with non-string
values are rejected here rather than skipped field-wise. -/
def parseJsonStringObject (body : String) : Option (List (String × String)) :=
  match body.toList.dropWhile jsonIsWs with
  | c :: rest =>
    if c = jsonLBrace then
      match rest.dropWhile jsonIsWs with
      | d :: rest₁ =>
        if d = jsonRBrace then
          (if rest₁.dropWhile jsonIsWs = [] then some [] else none)
        else
          match jsonPairsGo (rest.length + 1) [] rest with
          | some (pairs, rest₂) =>
            if rest₂.dropWhile jsonIsWs = [] then some pairs.reverse else none
          | none => none
      | [] => none
    else none
  | [] => none

/-- Model of serde_json::from_str::<Brc20Deploy>: requires the string
fields p, op, tick, max; lim and dec stay optional. -/
def parseBrc20Deploy (body : String) : Option Brc20Deploy :=
  match parseJsonStringObject body with
  | some fields =>
    match mapLookup fields "p", mapLookup fields "op",
        mapLookup fields "tick", mapLookup fields "max" with
    | some p, some op, some tick, some max =>
      some { p := p, op := op, tick := tick, max := max,
             lim := mapLookup fields "lim", dec := mapLookup fields "dec" }
    | _, _, _, _ => none
  | none => none

/-- Model of serde_json::from_str::<Brc20Mint>: requires p, op, tick,
amt. -/
def parseBrc20Mint (body : String) : Option Brc20Mint :=
  match parseJsonStringObject body with
  | some fields =>
    match mapLookup fields "p", mapLookup fields "op",
        mapLookup fields "tick", mapLookup fields "amt" with
    | some p, some op, some tick, some amt =>
      some { p := p, op := op, tick := tick, amt := amt }
    | _, _, _, _ => none
  | none => none

/-- Model of serde_json::from_str::<Brc20Transfer>: requires p, op,
tick, amt. -/
def parseBrc20Transfer (body : String) : Option Brc20Transfer :=
  match parseJsonStringObject body with
  | some fields =>
    match mapLookup fields "p", mapLookup fields "op",
        mapLookup fields "tick", mapLookup fields "amt" with
    | some p, some op, some tick, some amt =>
      some { p := p, op := op, tick := tick, amt := amt }
    | _, _, _, _ => none
  | none => none

/-- One oracle item of the index_brc20 loop: the content type and body
of the inscription, the outpoint of its location, and the raw
transaction data the oracle returns for that outpoint. -/
structure InscriptionEvent where
  contentType : Option String
  body : Option (List Nat)
  location : OutPoint
  rawTxInfo : RawTxInfo
  deriving DecidableEq, Repr

/-- Embedding of one iteration of the index_brc20 loop (brc20_index.rs
lines 119-227).  Inscriptions without content type, with an unaccepted
content type or without body are skipped; a body that is not UTF-8, a
missing blocktime and an unresolvable owner script all propagate as
errors out of the loop, mirroring the question-mark operator in the
source.  The parsed payload is then routed through the three
independent op-dispatch arms; the document-sink writes are outside the
model. -/
def processInscription (state : Brc20Index) (event : InscriptionEvent) :
    Except String Brc20Index :=
  match event.contentType with
  | none => .ok state
  | some ct =>
    if ct = "application/json" ∨ ct = "text/plain;charset=utf-8" then
      match event.body with
      | none => .ok state
      | some bytes =>
        match strFromUtf8 bytes with
        | none => .error "invalid utf-8 sequence in inscription body"
        | some parseInc =>
          match getOwnerOfOutput event.location event.rawTxInfo with
          | .error e => .error e
          | .ok owner =>
            match Brc20Tx.new event.rawTxInfo owner with
            | .error e => .error e
            | .ok brc20Tx =>
              match (match parseBrc20Deploy parseInc with
                     | some deploy => indexDeployStep state brc20Tx deploy
                     | none => .ok state) with
              | .error e => .error e
              | .ok state₁ =>
                let state₂ :=
                  match parseBrc20Mint parseInc with
                  | some mint => indexMintStep state₁ brc20Tx mint
                  | none => state₁
                let state₃ :=
                  match parseBrc20Transfer parseInc with
                  | some transfer => indexTransferStep state₂ brc20Tx transfer
                  | none => state₂
                .ok state₃
    else
      .ok state

/-- Embedding of index_brc20 over a whole inscription stream: the fold
of processInscription from the empty Brc20Index; the first propagated
per-item error aborts the remainder of the stream. -/
def runBrc20Index (events : List InscriptionEvent) : Except String Brc20Index :=
  events.foldlM processInscription Brc20Index.new

end Brc20

namespace Brc20

/-- Test address used as mint and transfer owner. -/
def addrA : AddressM := { network := .testnet, script := [1] }

/-- Bitcoin-side context of the sample inscription events. -/
def txA : Brc20Tx :=
  { txId := 11, vout := 0, blocktime := 100, owner := addrA, inputs := [] }

/-- Deploy payload of the ordi ticker from the spec scenarios. -/
def ordiDeploy : Brc20Deploy :=
  { p := "brc-20", op := "deploy", tick := "ordi", max := "21000000",
    lim := some "1000", dec := some "8" }

/-- Registered ordi ticker with 0 decimals, limit 1000 and max supply
21000000 base units, as a fresh registry entry. -/
def ordiTicker : Brc20Ticker :=
  { ticker := "ordi", limit := FRat.ofNat 1000, maxSupply := FRat.ofNat 21000000,
    totalMinted := FRat.zero, decimals := 0,
    deployTx := Brc20DeployTx.new txA ordiDeploy,
    mints := [], transfers := [], balances := [] }

/-- Mint payload for 1000 ordi. -/
def mintOrdi1000 : Brc20Mint :=
  { p := "brc-20", op := "mint", tick := "ordi", amt := "1000" }

/-- Mint payload for 1 ordi. -/
def mintOrdi1 : Brc20Mint :=
  { p := "brc-20", op := "mint", tick := "ordi", amt := "1" }

/-- Mint payload whose tick differs from the registered one only in
letter case. -/
def mintUpperOrdi : Brc20Mint :=
  { p := "brc-20", op := "mint", tick := "ORDI", amt := "1" }

/-- The ordi ticker with its full supply already minted. -/
def fullTicker : Brc20Ticker :=
  { ordiTicker with totalMinted := FRat.ofNat 21000000 }

/-- The ordi ticker with 500 base units of supply left. -/
def nearFullTicker : Brc20Ticker :=
  { ordiTicker with totalMinted := FRat.ofNat 20999500 }

/-- The ordi ticker holding a balance of 100 for the owner address. -/
def tickerWithBal : Brc20Ticker :=
  { ordiTicker with balances := [(addrA, UserBalance.new (FRat.ofNat 100))] }

/-- Transfer inscription of 40 ordi by the owner address. -/
def transfer40Tx : Brc20TransferTx :=
  Brc20TransferTx.new txA
    { p := "brc-20", op := "transfer", tick := "ordi", amt := "40" }

/-- Transfer inscription with a malformed amount string. -/
def transferBadAmtTx : Brc20TransferTx :=
  Brc20TransferTx.new txA
    { p := "brc-20", op := "transfer", tick := "ordi", amt := "xyz" }

/-- Transfer record of 7 ordi, used against a balance of 5. -/
def transfer7Tx : Brc20TransferTx :=
  Brc20TransferTx.new txA
    { p := "brc-20", op := "transfer", tick := "ordi", amt := "7" }

/-- Deploy payload with a 3-character tick and dec = 19; max decodes
cleanly at the 18 decimals that remain in force when dec is out of
range. -/
def shortTickDec19Deploy : Brc20Deploy :=
  { p := "brc-20", op := "deploy", tick := "abc", max := "1.000000000000000000",
    lim := none, dec := some "19" }

/-- Deploy payload with a 3-character tick and otherwise valid fields
(0 decimals so that max decodes within the u64 bound). -/
def shortTickCleanDeploy : Brc20Deploy :=
  { p := "brc-20", op := "deploy", tick := "abc", max := "100",
    lim := none, dec := some "0" }

/-- Deploy payload whose dec field is not a parseable integer. -/
def unparseableDecDeploy : Brc20Deploy :=
  { p := "brc-20", op := "deploy", tick := "abcd", max := "100",
    lim := none, dec := some "abc" }

/-- Raw transaction data with a resolvable single output. -/
def rawOk : RawTxInfo :=
  { txid := 11, blocktime := some 100, vin := [],
    vout := [{ n := 0, scriptPubKey := [5] }] }

/-- Raw transaction data without a blocktime. -/
def rawNoBlocktime : RawTxInfo := { rawOk with blocktime := none }

/-- Raw transaction data whose output script has no address form. -/
def rawBadScript : RawTxInfo :=
  { rawOk with vout := [{ n := 0, scriptPubKey := [] }] }

/-- Inscription event carrying a non-UTF-8 body (the lone byte 255)
under an accepted content type. -/
def badUtf8Event : InscriptionEvent :=
  { contentType := some "text/plain;charset=utf-8", body := some [255],
    location := { txid := 11, vout := 0 }, rawTxInfo := rawOk }

/-- A short valid-UTF-8 body. -/
def hiBody : List Nat := [104, 105]

/-- Inscription event whose transaction has no blocktime. -/
def noBlocktimeEvent : InscriptionEvent :=
  { contentType := some "text/plain;charset=utf-8", body := some hiBody,
    location := { txid := 11, vout := 0 }, rawTxInfo := rawNoBlocktime }

/-- Inscription event whose owner script cannot be resolved. -/
def badScriptEvent : InscriptionEvent :=
  { contentType := some "text/plain;charset=utf-8", body := some hiBody,
    location := { txid := 11, vout := 0 }, rawTxInfo := rawBadScript }

/-- JSON body of a valid ordi deploy with 0 decimals. -/
def ordiDeployJson : String :=
  String.mk ([jsonLBrace]
    ++ (String.toList
        "\"p\":\"brc-20\",\"op\":\"deploy\",\"tick\":\"ordi\",\"max\":\"100\",\"dec\":\"0\"")
    ++ [jsonRBrace])

/-- Inscription event carrying the ordi deploy payload. -/
def ordiDeployEvent : InscriptionEvent :=
  { contentType := some "application/json",
    body := some ((ordiDeployJson.toList).map Char.toNat),
    location := { txid := 11, vout := 0 }, rawTxInfo := rawOk }

end Brc20

namespace Brc20

/-- C1: the claim states that an accepted mint increments the ticker
total_minted by the effective amount, appends the mint record, and
increments the owner overall_balance by that amount.  Evaluating
Brc20Mint::validate at an accepted mint of 1000 ordi against a fresh
ordi ticker shows the code appends the mint record but leaves
total_minted at 0 and the owner overall balance at 0: add_mint in
brc20_ticker.rs carries the increments only as commented-out code. -/
theorem mint_accept_appends_but_never_increments :
    (Brc20Mint.validate mintOrdi1000 txA [("ordi", ordiTicker)] []).1.isValid = true ∧
    (Brc20Mint.validate mintOrdi1000 txA [("ordi", ordiTicker)] []).1.amount
      = FRat.ofNat 1000 ∧
    ((mapLookup (Brc20Mint.validate mintOrdi1000 txA [("ordi", ordiTicker)] []).2.1
        "ordi").map
      (fun t => (t.totalMinted, t.mints.map (fun m => m.amount),
        (t.getUserBalance addrA).map (fun ub => (ub.overallBalance, ub.mints.length)))))
      = some (FRat.zero, [FRat.ofNat 1000], some (FRat.zero, 1)) := by
  decide

/-- C2: the claim states that after an accepted transfer inscription the
TransferRecord is present in the owner active_transfer_inscriptions of
the stored ticker state.  Evaluating the inscribe path for a transfer of
40 against a stored balance of 100 shows the checks pass (no InvalidTx
entry is recorded) yet the stored ticker map comes back exactly equal to
its input - the record was inserted into the clone returned by
get_user_balance and dropped - and even the returned record still
carries is_valid = false because the source sets validity on a shadowed
local binding. -/
theorem transfer_inscribe_record_is_lost :
    (transfer40Tx.handleInscribeTransferAmount [("ordi", tickerWithBal)] []).2.1
      = [("ordi", tickerWithBal)] ∧
    (transfer40Tx.handleInscribeTransferAmount [("ordi", tickerWithBal)] []).2.2 = [] ∧
    (transfer40Tx.handleInscribeTransferAmount [("ordi", tickerWithBal)] []).1.isValid
      = false := by
  decide

/-- C3 counterexample: the claim states that a mint whose clamped amount
is 0 is rejected with reason Supply exhausted.  With the full ticker
(total_minted = max_supply) a mint of 1 stays within the limit, is
clamped to 0, and the validator ACCEPTS it with amount 0 and records no
InvalidTx entry: no Supply-exhausted rejection exists in the code. -/
theorem mint_clamped_to_zero_still_accepted :
    (Brc20Mint.validate mintOrdi1 txA [("ordi", fullTicker)] []).1.isValid = true ∧
    (Brc20Mint.validate mintOrdi1 txA [("ordi", fullTicker)] []).1.amount = FRat.zero ∧
    (Brc20Mint.validate mintOrdi1 txA [("ordi", fullTicker)] []).2.2 = [] := by
  decide

/-- C5 counterexample: the claim states the deploy validator records the
first-encountered failure reason and rejects a 3-character tick with the
reason Ticker symbol must be 4 characters long.  A deploy with tick abc
and dec 19 fails the length check first, but the recorded reason is the
LAST-encountered one - Decimals must be 18 or less - because each later
check overwrites the reason variable. -/
theorem deploy_reason_is_last_not_first :
    ((Brc20DeployTx.new txA shortTickDec19Deploy).validateDeployScript [] []).map
      (fun r => (r.1.isValid, r.2.map (fun e => e.2.reason)))
    = .ok (false, ["Decimals must be 18 or less"]) := by
  decide

/-- C6 counterexample: the claim states mint lookups use the lowercased
tick, so a payload differing only in case is processed against the
registered ticker.  A mint with tick ORDI against a registry holding the
key ordi is instead rejected with Ticker symbol does not exist, because
mint.rs looks the raw tick up without lowercasing. -/
theorem mint_case_differing_tick_rejected :
    (Brc20Mint.validate mintUpperOrdi txA [("ordi", ordiTicker)] []).1.isValid = false ∧
    ((Brc20Mint.validate mintUpperOrdi txA [("ordi", ordiTicker)] []).2.2.map
      (fun e => e.2.reason)) = ["Ticker symbol does not exist"] := by
  decide

/-- C7 counterexample: the claim states a transfer whose amt fails to
decode is rejected and recorded as InvalidTx.  A transfer with amt xyz
parses to 0 via parse::<f64>().unwrap_or(0.0), passes the available
balance check against the stored balance of 100, and is NOT recorded as
InvalidTx; no ticker decimals are involved in the parse. -/
theorem transfer_malformed_amt_not_rejected :
    (transferBadAmtTx.handleInscribeTransferAmount [("ordi", tickerWithBal)] []).2.2
      = [] ∧
    transferBadAmtTx.amount = FRat.zero ∧
    (transferBadAmtTx.handleInscribeTransferAmount [("ordi", tickerWithBal)] []).2.1
      = [("ordi", tickerWithBal)] := by
  decide

/-- C8: the claim states validation never throws, including a deploy
whose dec field is unparseable and a transfer send exceeding the overall
balance.  Both sites panic: the deploy validator unwraps the u8 parse of
dec, and add_transfer_send unwraps decrease_overall_balance. -/
theorem validators_panic_on_dec_and_oversend :
    ((Brc20DeployTx.new txA unparseableDecDeploy).validateDeployScript [] [])
      = .error "panicked at unwrap of dec parse::<u8> result" ∧
    ((UserBalance.new (FRat.ofNat 5)).addTransferSend transfer7Tx)
      = .error "Decrease amount exceeds overall balance" := by
  decide

/-- C9 counterexample: the claim states a non-UTF-8 body is Ignored and
processing continues with the next inscription.  Running the indexer on
a stream whose first item has a non-UTF-8 body under an accepted content
type aborts the whole run with an error instead: the following valid
deploy is never processed and nothing is recorded as InvalidTx. -/
theorem non_utf8_body_aborts_run :
    runBrc20Index [badUtf8Event, ordiDeployEvent]
      = .error "invalid utf-8 sequence in inscription body" := by
  decide

end Brc20
namespace Brc20

/-- Every error string the numeric decoder produces is non-empty, so a
decode failure always leaves a non-empty rejection reason. -/
theorem convertToFloat_error_ne (s : String) (d : Nat) :
    ¬ (convertToFloat s d = .error "") := by
  simp only [convertToFloat]
  repeat' split
  all_goals simp

/-- A deploy whose lowercased tick is already registered can never come
back valid from the deploy validator: the duplicate check writes a
non-empty reason and later checks only ever overwrite it with other
non-empty reasons. -/
theorem validateDeploy_dup_not_valid (self : Brc20DeployTx) (inv : InvalidBrc20TxMap)
    (m : TickerMap)
    (hdup : mapContains m (strToLower self.deployScript.tick) = true) :
    (self.validateDeployScript inv m).map (fun p => p.1.isValid) ≠ .ok true := by
  simp only [Brc20DeployTx.validateDeployScript, hdup]
  rcases hdec : self.deployScript.dec with _ | dstr
  · simp only [hdec]
    repeat' split
    all_goals simp_all [convertToFloat_error_ne, Except.map, beq_iff_eq]
  · simp only [hdec]
    rcases hp : parseU8 dstr with _ | k
    · simp [hp, Except.map]
    · simp only [hp]
      by_cases hk : 18 < k
      · simp only [hk, if_true, if_pos]
        repeat' split
        all_goals simp_all [convertToFloat_error_ne, Except.map, beq_iff_eq]
      · simp only [hk, if_false, if_neg]
        repeat' split
        all_goals simp_all [convertToFloat_error_ne, Except.map, beq_iff_eq]

/-- The deploy validator never alters the deploy script it carries. -/
theorem validateDeploy_preserves_script (self : Brc20DeployTx) (inv : InvalidBrc20TxMap)
    (m : TickerMap) (r : Brc20DeployTx) (inv' : InvalidBrc20TxMap)
    (h : self.validateDeployScript inv m = .ok (r, inv')) :
    r.deployScript = self.deployScript := by
  simp only [Brc20DeployTx.validateDeployScript] at h
  repeat' split at h
  all_goals (try (simp only [Except.ok.injEq, Prod.mk.injEq] at h; obtain ⟨h1, h2⟩ := h; subst h1))
  all_goals simp_all

/-- A mint that comes back invalid leaves the ticker registry exactly
as it was: the validator only touches the registry on its accept path. -/
theorem mint_invalid_no_mut (mint : Brc20Mint) (tx : Brc20Tx) (m : TickerMap)
    (inv : InvalidBrc20TxMap)
    (h : (Brc20Mint.validate mint tx m inv).1.isValid = false) :
    (Brc20Mint.validate mint tx m inv).2.1 = m := by
  simp only [Brc20Mint.validate, Brc20MintTx.new] at h ⊢
  cases hX : mapLookup m mint.tick with
  | none => simp [hX]
  | some T =>
    cases hC : convertToFloat mint.amt T.getDecimals with
    | error e => simp [hX, hC]
    | ok a =>
      cases hL : FRat.blt T.getLimit a with
      | true => simp [hX, hC, hL]
      | false =>
        cases hM : FRat.blt T.getMaxSupply (T.getTotalMinted.add a) with
        | true => simp [hX, hC, hL, hM] at h
        | false => simp [hX, hC, hL, hM] at h

/-- The transfer inscription handler returns the ticker registry it was
given on every path: its only mutation targets a cloned UserBalance that
is dropped. -/
theorem handle_inscribe_never_mutates (self : Brc20TransferTx) (m : TickerMap)
    (inv : InvalidBrc20TxMap) :
    (self.handleInscribeTransferAmount m inv).2.1 = m := rfl

/-- The deploy arm of the index loop leaves the registry unchanged for
a deploy whose lowercased tick is already registered. -/
theorem indexDeployStep_dup_tickers_eq (state : Brc20Index) (tx : Brc20Tx)
    (d : Brc20Deploy) (st' : Brc20Index)
    (h : indexDeployStep state tx d = .ok st')
    (hdup : mapContains state.tickers (strToLower d.tick) = true) :
    st'.tickers = state.tickers := by
  simp only [indexDeployStep] at h
  split at h
  · split at h
    · cases h
    · rename_i vd inv₁ heq
      split at h
      · rename_i hvalid
        have hnv := validateDeploy_dup_not_valid (Brc20DeployTx.new tx d)
          state.invalidTxMap state.tickers hdup
        rw [heq] at hnv
        simp [Except.map] at hnv
        simp [hnv] at hvalid
      · cases h
        rfl
  · cases h
    rfl

/-- The deploy arm of the index loop leaves the registry unchanged for
EVERY deploy whose validation comes back invalid, whatever the recorded
reason (short tick, duplicate, dec out of range, zero max, lim above
max, or a decode error): registration happens only on the is_valid
branch. -/
theorem indexDeployStep_invalid_tickers_eq (state : Brc20Index) (tx : Brc20Tx)
    (d : Brc20Deploy) (st' : Brc20Index) (r : Brc20DeployTx)
    (inv₁ : InvalidBrc20TxMap)
    (h : indexDeployStep state tx d = .ok st')
    (hv : (Brc20DeployTx.new tx d).validateDeployScript state.invalidTxMap
            state.tickers = .ok (r, inv₁))
    (hval : r.isValid = false) :
    st'.tickers = state.tickers := by
  simp only [indexDeployStep] at h
  split at h
  · split at h
    · rename_i heq
      rw [hv] at heq
      cases heq
    · rename_i vd invA heq
      rw [hv] at heq
      simp only [Except.ok.injEq, Prod.mk.injEq] at heq
      obtain ⟨h₁, h₂⟩ := heq
      subst h₁
      rw [hval] at h
      simp only [Bool.false_eq_true, if_false] at h
      cases h
      rfl
  · cases h
    rfl

/-- The deploy arm of the index loop either leaves the registry alone
or inserts the new ticker under the lowercased payload tick. -/
theorem indexDeployStep_registers_lowercase (state : Brc20Index) (tx : Brc20Tx)
    (d : Brc20Deploy) (st' : Brc20Index)
    (h : indexDeployStep state tx d = .ok st') :
    st'.tickers = state.tickers ∨
    ∃ tkr, st'.tickers = mapInsert state.tickers (strToLower d.tick) tkr := by
  simp only [indexDeployStep] at h
  split at h
  · split at h
    · cases h
    · rename_i vd inv₁ heq
      split at h
      · cases h
        refine Or.inr ⟨Brc20Ticker.new vd, ?_⟩
        have hscript := validateDeploy_preserves_script
          (Brc20DeployTx.new tx d) state.invalidTxMap state.tickers vd inv₁ heq
        simp only [Brc20Ticker.getTicker, Brc20Ticker.new, hscript]
        rfl
      · cases h
        exact Or.inl rfl
  · cases h
    exact Or.inl rfl

end Brc20
namespace Brc20

/-- C3 (amended): when the requested mint amount stays within the limit
but total_minted + amount exceeds max_supply, the mint is ACCEPTED with
the effective amount clamped to max_supply - total_minted and no
InvalidTx entry; the informational adjustment reason is built only in a
local variable that is dropped on the accept path, and the clamped
amount may be 0 - there is no Supply-exhausted rejection. -/
theorem mint_clamp_accepted_with_adjustment (mint : Brc20Mint) (tx : Brc20Tx)
    (m : TickerMap) (inv : InvalidBrc20TxMap) (T : Brc20Ticker) (a : FRat)
    (hmap : mapLookup m mint.tick = some T)
    (hconv : convertToFloat mint.amt T.getDecimals = .ok a)
    (hlim : FRat.blt T.getLimit a = false)
    (hmax : FRat.blt T.getMaxSupply (T.getTotalMinted.add a) = true) :
    (Brc20Mint.validate mint tx m inv).1.isValid = true ∧
    (Brc20Mint.validate mint tx m inv).1.amount
      = T.getMaxSupply.sub T.getTotalMinted ∧
    (Brc20Mint.validate mint tx m inv).2.2 = inv := by
  simp only [Brc20Mint.validate, Brc20MintTx.new]
  rw [hmap]
  simp only []
  rw [hconv]
  simp [hlim, hmax]

/-- Witness for the clamp theorem at the spec scenario: 500 base units
of supply left and a mint of 1000 is accepted at 500. -/
theorem mint_clamp_witness :
    (Brc20Mint.validate mintOrdi1000 txA [("ordi", nearFullTicker)] []).1.isValid = true ∧
    (Brc20Mint.validate mintOrdi1000 txA [("ordi", nearFullTicker)] []).1.amount
      = nearFullTicker.getMaxSupply.sub nearFullTicker.getTotalMinted ∧
    (Brc20Mint.validate mintOrdi1000 txA [("ordi", nearFullTicker)] []).2.2 = [] :=
  mint_clamp_accepted_with_adjustment mintOrdi1000 txA [("ordi", nearFullTicker)] []
    nearFullTicker (FRat.ofNat 1000) (by decide) (by decide) (by decide) (by decide)

/-- Validated (and rejected) form of the short-tick deploy: only the
4-character check fails, so the length reason is recorded and the
result is invalid. -/
def shortTickDeployResult : Brc20DeployTx :=
  { maxSupply := FRat.ofNat 100, limit := FRat.ofNat 100, decimals := 0,
    brc20Tx := txA, deployScript := shortTickCleanDeploy, isValid := false }

/-- State after indexing the short-tick deploy from the empty index:
registry still empty, one InvalidTx entry with the length reason. -/
def shortTickStepResult : Brc20Index :=
  { tickers := [],
    invalidTxMap :=
      [(11, { brc20Tx := txA, reason := "Ticker symbol must be 4 characters long" })] }

/-- Registry state that already holds the ordi ticker. -/
def dupState : Brc20Index := { tickers := [("ordi", ordiTicker)], invalidTxMap := [] }

/-- A second, well-formed deploy of the already-registered ordi tick. -/
def ordiDupDeploy : Brc20Deploy :=
  { p := "brc-20", op := "deploy", tick := "ordi", max := "100",
    lim := none, dec := some "0" }

/-- State after the duplicate deploy: registry untouched, one InvalidTx
entry recording the duplicate. -/
def dupStepResult : Brc20Index :=
  { tickers := [("ordi", ordiTicker)],
    invalidTxMap := [(11, { brc20Tx := txA, reason := "Ticker symbol already exists" })] }

/-- C4: an operation recorded as InvalidTx mutates no ticker or balance
state: an invalid mint returns the registry unchanged, the transfer
inscription handler never writes the registry at all, a deploy whose
lowercased tick is already registered leaves the registry unchanged,
EVERY deploy whose validation comes back invalid - whatever the
recorded reason - leaves the registry unchanged, and running the
literal duplicate-deploy scenario end to end leaves the registry at the
single ordi entry with the InvalidTx reason Ticker symbol already
exists. -/
theorem invalidtx_events_leave_state_unchanged :
    (∀ mint tx m inv, (Brc20Mint.validate mint tx m inv).1.isValid = false →
        (Brc20Mint.validate mint tx m inv).2.1 = m)
  ∧ (∀ self m inv,
        (Brc20TransferTx.handleInscribeTransferAmount self m inv).2.1 = m)
  ∧ (∀ state tx d st', indexDeployStep state tx d = .ok st' →
        mapContains state.tickers (strToLower d.tick) = true →
        st'.tickers = state.tickers)
  ∧ (∀ state tx d st' (r : Brc20DeployTx) (inv₁ : InvalidBrc20TxMap),
        indexDeployStep state tx d = .ok st' →
        (Brc20DeployTx.new tx d).validateDeployScript state.invalidTxMap
            state.tickers = .ok (r, inv₁) →
        r.isValid = false →
        st'.tickers = state.tickers)
  ∧ ((runBrc20Index [ordiDeployEvent, ordiDeployEvent]).map
        (fun st => (st.tickers.map Prod.fst, st.invalidTxMap.map (fun e => e.2.reason)))
      = .ok (["ordi"], ["Ticker symbol already exists"])) :=
  ⟨mint_invalid_no_mut, handle_inscribe_never_mutates,
   fun state tx d st' h hdup => indexDeployStep_dup_tickers_eq state tx d st' h hdup,
   fun state tx d st' r inv₁ h hv hval =>
     indexDeployStep_invalid_tickers_eq state tx d st' r inv₁ h hv hval,
   by decide⟩

/-- Witness instantiating each part of the InvalidTx no-mutation
theorem at concrete inputs: a case-differing mint, a transfer, the
duplicate deploy, and a short-tick (non-duplicate) invalid deploy. -/
theorem invalidtx_witness :
    (Brc20Mint.validate mintUpperOrdi txA [("ordi", ordiTicker)] []).2.1
      = [("ordi", ordiTicker)] ∧
    (transfer40Tx.handleInscribeTransferAmount [("ordi", tickerWithBal)] []).2.1
      = [("ordi", tickerWithBal)] ∧
    dupStepResult.tickers = dupState.tickers ∧
    shortTickStepResult.tickers = Brc20Index.new.tickers :=
  ⟨invalidtx_events_leave_state_unchanged.1 mintUpperOrdi txA [("ordi", ordiTicker)] []
      (by decide),
   invalidtx_events_leave_state_unchanged.2.1 transfer40Tx [("ordi", tickerWithBal)] [],
   invalidtx_events_leave_state_unchanged.2.2.1 dupState txA ordiDupDeploy dupStepResult
      (by decide) (by decide),
   invalidtx_events_leave_state_unchanged.2.2.2.1 Brc20Index.new txA
      shortTickCleanDeploy shortTickStepResult shortTickDeployResult
      shortTickStepResult.invalidTxMap (by decide) (by decide) (by decide)⟩

end Brc20
namespace Brc20

/-- C5 (amended): the deploy validator checks duplicate registration
BEFORE tick length (the length check is the else-branch of the
duplicate check), and the dec, max and lim checks each overwrite the
reason variable, so a rejected deploy records the LAST-encountered
failure reason, not the first.  A deploy with a 3- or 5-character tick
whose remaining fields are valid is rejected with reason Ticker symbol
must be 4 characters long (first and second clauses); when dec is out of
range as well, that later reason wins (third clause). -/
theorem deploy_checks_code_order_last_reason :
    (∀ tx d inv m (a b : FRat),
      mapContains m (strToLower d.tick) = false →
      d.tick.length ≠ 4 →
      d.dec = none →
      convertToFloat d.max 18 = .ok a → a.beq FRat.zero = false →
      convertToFloat (d.lim.getD "0") 18 = .ok b → FRat.blt a b = false →
      ((Brc20DeployTx.new tx d).validateDeployScript inv m).map
          (fun p => (p.1.isValid, p.2))
        = .ok (false,
            inv.addInvalidTx
              { brc20Tx := tx, reason := "Ticker symbol must be 4 characters long" }))
  ∧ (∀ tx d inv m (k : Nat) (s : String) (a b : FRat),
      mapContains m (strToLower d.tick) = false →
      d.tick.length ≠ 4 →
      d.dec = some s → parseU8 s = some k → ¬ 18 < k →
      convertToFloat d.max k = .ok a → a.beq FRat.zero = false →
      convertToFloat (d.lim.getD "0") k = .ok b → FRat.blt a b = false →
      ((Brc20DeployTx.new tx d).validateDeployScript inv m).map
          (fun p => (p.1.isValid, p.2))
        = .ok (false,
            inv.addInvalidTx
              { brc20Tx := tx, reason := "Ticker symbol must be 4 characters long" }))
  ∧ (∀ tx d inv m (k : Nat) (s : String) (a b : FRat),
      mapContains m (strToLower d.tick) = false →
      d.tick.length ≠ 4 →
      d.dec = some s → parseU8 s = some k → 18 < k →
      convertToFloat d.max 18 = .ok a → a.beq FRat.zero = false →
      convertToFloat (d.lim.getD "0") 18 = .ok b → FRat.blt a b = false →
      ((Brc20DeployTx.new tx d).validateDeployScript inv m).map
          (fun p => (p.1.isValid, p.2))
        = .ok (false,
            inv.addInvalidTx
              { brc20Tx := tx, reason := "Decimals must be 18 or less" })) := by
  refine ⟨?_, ?_, ?_⟩
  · intro tx d inv m a b hdup hlen hdec hmax ha hlim hb
    simp only [Brc20DeployTx.validateDeployScript, Brc20DeployTx.new, hdup, hdec,
      hmax, hlim]
    repeat' split
    all_goals simp_all [Except.map]
  · intro tx d inv m k s a b hdup hlen hdec hp hk hmax ha hlim hb
    simp only [Brc20DeployTx.validateDeployScript, Brc20DeployTx.new, hdup, hdec, hp,
      hmax, hlim]
    rw [if_neg hk]
    repeat' split
    all_goals simp_all [Except.map]
  · intro tx d inv m k s a b hdup hlen hdec hp hk hmax ha hlim hb
    simp only [Brc20DeployTx.validateDeployScript, Brc20DeployTx.new, hdup, hdec, hp,
      hmax, hlim]
    rw [if_pos hk]
    repeat' split
    all_goals simp_all [Except.map]

/-- Deploy payload with a 3-character tick, no dec field, and a max
that decodes within the u64 bound at the default 18 decimals. -/
def shortTickDecNoneDeploy : Brc20Deploy :=
  { p := "brc-20", op := "deploy", tick := "abc", max := "1.000000000000000000",
    lim := none, dec := none }

/-- Witness instantiating the three deploy-order clauses at concrete
payloads. -/
theorem deploy_checks_witness :
    (((Brc20DeployTx.new txA shortTickDecNoneDeploy).validateDeployScript [] []).map
        (fun p => (p.1.isValid, p.2))
      = .ok (false,
          InvalidBrc20TxMap.addInvalidTx []
            { brc20Tx := txA, reason := "Ticker symbol must be 4 characters long" })) ∧
    (((Brc20DeployTx.new txA shortTickCleanDeploy).validateDeployScript [] []).map
        (fun p => (p.1.isValid, p.2))
      = .ok (false,
          InvalidBrc20TxMap.addInvalidTx []
            { brc20Tx := txA, reason := "Ticker symbol must be 4 characters long" })) ∧
    (((Brc20DeployTx.new txA shortTickDec19Deploy).validateDeployScript [] []).map
        (fun p => (p.1.isValid, p.2))
      = .ok (false,
          InvalidBrc20TxMap.addInvalidTx []
            { brc20Tx := txA, reason := "Decimals must be 18 or less" })) :=
  ⟨deploy_checks_code_order_last_reason.1 txA shortTickDecNoneDeploy [] []
      (FRat.ofNat 1000000000000000000) FRat.zero
      (by decide) (by decide) (by decide) (by decide) (by decide) (by decide) (by decide),
   deploy_checks_code_order_last_reason.2.1 txA shortTickCleanDeploy [] [] 0 "0"
      (FRat.ofNat 100) FRat.zero
      (by decide) (by decide) (by decide) (by decide) (by decide) (by decide) (by decide)
      (by decide) (by decide),
   deploy_checks_code_order_last_reason.2.2 txA shortTickDec19Deploy [] [] 19 "19"
      (FRat.ofNat 1000000000000000000) FRat.zero
      (by decide) (by decide) (by decide) (by decide) (by decide) (by decide) (by decide)
      (by decide) (by decide)⟩

end Brc20
namespace Brc20

/-- C6 (amended): mint and transfer look the ticker up by the RAW tick,
not its lowercase form, while deploys register tickers under the
lowercased tick; hence a payload whose tick is absent from the registry
as written is rejected as nonexistent even when its lowercase form is
registered - a case-differing tick is NOT processed against the
registered ticker. -/
theorem ticker_lookup_uses_raw_tick :
    (∀ (mint : Brc20Mint) (tx : Brc20Tx) (m : TickerMap) (inv : InvalidBrc20TxMap),
      mapLookup m mint.tick = none →
      (Brc20Mint.validate mint tx m inv).1.isValid = false ∧
      (Brc20Mint.validate mint tx m inv).2.2
        = inv.addInvalidTx { brc20Tx := tx, reason := "Ticker symbol does not exist" })
  ∧ (∀ (self : Brc20TransferTx) (m : TickerMap) (inv : InvalidBrc20TxMap),
      mapLookup m self.transferScript.tick = none →
      (self.handleInscribeTransferAmount m inv).2.2
        = inv.addInvalidTx { brc20Tx := self.inscriptionTx, reason := "Ticker not found" })
  ∧ (∀ (state : Brc20Index) (tx : Brc20Tx) (d : Brc20Deploy) (st' : Brc20Index),
      indexDeployStep state tx d = .ok st' →
      st'.tickers = state.tickers ∨
      ∃ tkr, st'.tickers = mapInsert state.tickers (strToLower d.tick) tkr) := by
  refine ⟨?_, ?_, indexDeployStep_registers_lowercase⟩
  · intro mint tx m inv hraw
    simp only [Brc20Mint.validate, Brc20MintTx.new]
    rw [hraw]
    simp [InvalidBrc20TxMap.addInvalidTx]
  · intro self m inv hraw
    simp only [Brc20TransferTx.handleInscribeTransferAmount]
    rw [hraw]
    simp [InvalidBrc20TxMap.addInvalidTx]
    intro hcontra
    exact absurd hcontra (by decide)

/-- Transfer inscription whose tick differs from the registered one
only in letter case. -/
def transferUpperTx : Brc20TransferTx :=
  Brc20TransferTx.new txA
    { p := "brc-20", op := "transfer", tick := "ORDI", amt := "1" }

/-- Witness instantiating the raw-tick-lookup theorem at case-differing
mint and transfer payloads and at the duplicate-deploy step. -/
theorem ticker_lookup_witness :
    ((Brc20Mint.validate mintUpperOrdi txA [("ordi", ordiTicker)] []).1.isValid = false ∧
     (Brc20Mint.validate mintUpperOrdi txA [("ordi", ordiTicker)] []).2.2
       = InvalidBrc20TxMap.addInvalidTx []
           { brc20Tx := txA, reason := "Ticker symbol does not exist" }) ∧
    ((transferUpperTx.handleInscribeTransferAmount [("ordi", ordiTicker)] []).2.2
       = InvalidBrc20TxMap.addInvalidTx []
           { brc20Tx := txA, reason := "Ticker not found" }) ∧
    (dupStepResult.tickers = dupState.tickers ∨
     ∃ tkr, dupStepResult.tickers
       = mapInsert dupState.tickers (strToLower ordiDupDeploy.tick) tkr) :=
  ⟨ticker_lookup_uses_raw_tick.1 mintUpperOrdi txA [("ordi", ordiTicker)] [] (by decide),
   ticker_lookup_uses_raw_tick.2.1 transferUpperTx [("ordi", ordiTicker)] [] (by decide),
   ticker_lookup_uses_raw_tick.2.2 dupState txA ordiDupDeploy dupStepResult (by decide)⟩

/-- C7 (amended): the transfer inscription amount is parsed with
parse::<f64>().unwrap_or(0.0) - the ticker decimals play no part - so a
malformed amt becomes 0; such a transfer passes the available-balance
check whenever the owner has a balance with non-negative availability,
and is NOT recorded as InvalidTx. -/
theorem transfer_malformed_amt_treated_as_zero :
    (∀ (tx : Brc20Tx) (script : Brc20Transfer), parseF64 script.amt = none →
      (Brc20TransferTx.new tx script).amount = FRat.zero)
  ∧ (∀ (self : Brc20TransferTx) (m : TickerMap) (inv : InvalidBrc20TxMap)
        (T : Brc20Ticker) (ub : UserBalance),
      mapLookup m self.transferScript.tick = some T →
      T.getUserBalance self.inscriptionTx.owner = some ub →
      parseF64 self.transferScript.amt = none →
      FRat.ble FRat.zero ub.getAvailableBalance = true →
      (self.handleInscribeTransferAmount m inv).2.2 = inv ∧
      (self.handleInscribeTransferAmount m inv).2.1 = m) := by
  refine ⟨?_, ?_⟩
  · intro tx script hparse
    simp [Brc20TransferTx.new, hparse]
  · intro self m inv T ub hmap hub hparse hble
    refine ⟨?_, rfl⟩
    simp only [Brc20TransferTx.handleInscribeTransferAmount]
    rw [hmap]
    simp only [hparse, Option.getD_none]
    rw [hub]
    simp [hble]

/-- Witness at the malformed-amt transfer against a stored balance. -/
theorem transfer_malformed_witness :
    transferBadAmtTx.amount = FRat.zero ∧
    (transferBadAmtTx.handleInscribeTransferAmount [("ordi", tickerWithBal)] []).2.2
      = [] ∧
    (transferBadAmtTx.handleInscribeTransferAmount [("ordi", tickerWithBal)] []).2.1
      = [("ordi", tickerWithBal)] :=
  ⟨transfer_malformed_amt_treated_as_zero.1 txA
      { p := "brc-20", op := "transfer", tick := "ordi", amt := "xyz" } (by decide),
   (transfer_malformed_amt_treated_as_zero.2 transferBadAmtTx [("ordi", tickerWithBal)]
      [] tickerWithBal (UserBalance.new (FRat.ofNat 100))
      (by decide) (by decide) (by decide) (by decide)).1,
   (transfer_malformed_amt_treated_as_zero.2 transferBadAmtTx [("ordi", tickerWithBal)]
      [] tickerWithBal (UserBalance.new (FRat.ofNat 100))
      (by decide) (by decide) (by decide) (by decide)).2⟩

end Brc20
namespace Brc20

/-- C9 (amended): a per-event failure ABORTS the whole indexing run
instead of being Ignored or recorded as InvalidTx: a non-UTF-8 body
under an accepted content type, an unresolvable owner script, and a
missing blocktime each make processInscription return an error, and an
erroring event short-circuits the fold over the remaining inscription
stream, so later inscriptions are never processed. -/
theorem per_event_oracle_failures_abort_run :
    (∀ (st : Brc20Index) (ev : InscriptionEvent) (ct : String) (bs : List Nat),
      ev.contentType = some ct →
      (ct = "application/json" ∨ ct = "text/plain;charset=utf-8") →
      ev.body = some bs → strFromUtf8 bs = none →
      processInscription st ev = .error "invalid utf-8 sequence in inscription body")
  ∧ (∀ (st : Brc20Index) (ev : InscriptionEvent) (ct s₀ : String) (bs : List Nat)
        (e : String),
      ev.contentType = some ct →
      (ct = "application/json" ∨ ct = "text/plain;charset=utf-8") →
      ev.body = some bs → strFromUtf8 bs = some s₀ →
      getOwnerOfOutput ev.location ev.rawTxInfo = .error e →
      processInscription st ev = .error e)
  ∧ (∀ (st : Brc20Index) (ev : InscriptionEvent) (ct s₀ : String) (bs : List Nat)
        (owner : AddressM) (v : VoutEntry) (vs : List VoutEntry),
      ev.contentType = some ct →
      (ct = "application/json" ∨ ct = "text/plain;charset=utf-8") →
      ev.body = some bs → strFromUtf8 bs = some s₀ →
      getOwnerOfOutput ev.location ev.rawTxInfo = .ok owner →
      ev.rawTxInfo.vout = v :: vs →
      ev.rawTxInfo.blocktime = none →
      processInscription st ev = .error "Blocktime not found in raw transaction result")
  ∧ (∀ (st : Brc20Index) (ev : InscriptionEvent) (evs : List InscriptionEvent)
        (e : String),
      processInscription st ev = .error e →
      List.foldlM processInscription st (ev :: evs) = .error e) := by
  refine ⟨?_, ?_, ?_, ?_⟩
  · intro st ev ct bs hct hacc hbody hutf
    simp only [processInscription, hct, hbody, hutf]
    rw [if_pos hacc]
  · intro st ev ct s₀ bs e hct hacc hbody hutf hown
    simp only [processInscription, hct, hbody, hutf, hown]
    rw [if_pos hacc]
  · intro st ev ct s₀ bs owner v vs hct hacc hbody hutf hown hvout hbt
    simp only [processInscription, hct, hbody, hutf, hown, Brc20Tx.new, hvout, hbt]
    rw [if_pos hacc]
  · intro st ev evs e hstep
    simp only [List.foldlM, hstep]
    rfl

/-- Witness instantiating the abort theorem at the three failing events
and a two-event stream. -/
theorem per_event_failures_witness :
    processInscription Brc20Index.new badUtf8Event
      = .error "invalid utf-8 sequence in inscription body" ∧
    processInscription Brc20Index.new badScriptEvent
      = .error "Couldn't derive address from scriptPubKey" ∧
    processInscription Brc20Index.new noBlocktimeEvent
      = .error "Blocktime not found in raw transaction result" ∧
    List.foldlM processInscription Brc20Index.new [badUtf8Event, ordiDeployEvent]
      = .error "invalid utf-8 sequence in inscription body" :=
  ⟨per_event_oracle_failures_abort_run.1 Brc20Index.new badUtf8Event
      "text/plain;charset=utf-8" [255] (by decide) (by decide) (by decide) (by decide),
   per_event_oracle_failures_abort_run.2.1 Brc20Index.new badScriptEvent
      "text/plain;charset=utf-8" "hi" hiBody "Couldn't derive address from scriptPubKey"
      (by decide) (by decide) (by decide) (by decide) (by decide),
   per_event_oracle_failures_abort_run.2.2.1 Brc20Index.new noBlocktimeEvent
      "text/plain;charset=utf-8" "hi" hiBody { network := .testnet, script := [5] }
      { n := 0, scriptPubKey := [5] } [] (by decide) (by decide) (by decide) (by decide)
      (by decide) (by decide) (by decide),
   per_event_oracle_failures_abort_run.2.2.2 Brc20Index.new badUtf8Event
      [ordiDeployEvent] "invalid utf-8 sequence in inscription body" (by decide)⟩

/-- C10: both copies of get_owner_of_output derive the owner address
with Network::Testnet hardcoded, so every derived owner address - and
hence all balance keying - carries the testnet network regardless of
any configured network; the underlying derivation itself is
network-sensitive (third clause), so the hardcoding is what pins the
result. -/
theorem owner_derivation_hardcodes_testnet :
    (∀ (o : OutPoint) (r : RawTxInfo) (a : AddressM),
      getOwnerOfOutput o r = .ok a → a.network = Network.testnet)
  ∧ (∀ (o : OutPoint) (r : RawTxInfo) (a : AddressM),
      getOwnerOfOutputIndexer o r = .ok a → a.network = Network.testnet)
  ∧ (∀ (s : List Nat) (n : Network) (a : AddressM),
      AddressM.fromScript s n = some a → a.network = n) := by
  refine ⟨?_, ?_, ?_⟩
  · intro o r a h
    simp only [getOwnerOfOutput] at h
    split at h
    next => cases h
    next entry heq =>
      split at h
      next addr hf =>
        cases h
        simp only [AddressM.fromScript] at hf
        split at hf
        · cases hf
        · cases hf
          rfl
      next hf => cases h
  · intro o r a h
    simp only [getOwnerOfOutputIndexer] at h
    split at h
    next => cases h
    next entry heq =>
      split at h
      next addr hf =>
        cases h
        simp only [AddressM.fromScript] at hf
        split at hf
        · cases hf
        · cases hf
          rfl
      next hf => cases h
  · intro s n a h
    simp only [AddressM.fromScript] at h
    split at h
    · cases h
    · cases h
      rfl

/-- Witness: concrete owner derivations returning testnet-tagged
addresses, and a mainnet derivation from the same script showing the
network parameter matters. -/
theorem owner_derivation_witness :
    (∃ a, getOwnerOfOutput { txid := 11, vout := 0 } rawOk = .ok a ∧
      a.network = Network.testnet) ∧
    (∃ a, getOwnerOfOutputIndexer { txid := 11, vout := 0 } rawOk = .ok a ∧
      a.network = Network.testnet) ∧
    (∃ a, AddressM.fromScript [5] Network.mainnet = some a ∧
      a.network = Network.mainnet) :=
  ⟨⟨{ network := .testnet, script := [5] }, by decide,
      owner_derivation_hardcodes_testnet.1 { txid := 11, vout := 0 } rawOk
        { network := .testnet, script := [5] } (by decide)⟩,
   ⟨{ network := .testnet, script := [5] }, by decide,
      owner_derivation_hardcodes_testnet.2.1 { txid := 11, vout := 0 } rawOk
        { network := .testnet, script := [5] } (by decide)⟩,
   ⟨{ network := .mainnet, script := [5] }, by decide,
      owner_derivation_hardcodes_testnet.2.2 [5] Network.mainnet
        { network := .mainnet, script := [5] } (by decide)⟩⟩

end Brc20
